import Mathlib

/-!
Verification of the Zust authentication and session-lifecycle core.

This development embeds, in Lean, the token issuance / verification /
invalidation core of the Zust backend (Go): the JWT service
(`CreateToken`, `VerifyToken`), the persistence queries over the
`account` table (`GetTokenVersion`, `IncrementTokenVersion`,
`CreateAccountWithPassword`, `CreateAccountWithOAuth`,
`IsAccountRegistered`, `LoginWithOAuth`, `ActivateAccount`,
`GetAccountByUsername`), the authentication middleware
(`AuthMiddleware`, the variant that enforces the per-endpoint
token-kind policy), and the HTTP handlers `HandleLogin`,
`HandleRegister`, `handleOAuth`, `HandleRefreshToken`, `HandleLogout`.

Conventions of the embedding:
* Go `int` values (token versions, times) are Lean `Int`.
* Time is an abstract integer clock; `time.Now()` becomes an explicit
  `now` parameter, and TTLs are integer durations in the same unit.
* A signed JWT string is modelled as either `TokenInput.malformed`
  (a string the JWT library cannot tokenise) or a structurally
  well-formed envelope `JwtToken` carrying its claims, the signing
  algorithm of its header, and the key under which its signature
  verifies; signature checking becomes key comparison.
* The database connection is modelled as the list of `account` rows;
  query functions return `Except DbErr` with `DbErr.noRows` standing
  for `sql.ErrNoRows` and `DbErr.other` for any other driver error.
  Where a handler consults the store through an injectable function
  (`getVersion`), arbitrary persistence failures can be modelled.
* External side effects with no data flow into the core (filesystem
  repository creation, avatar download, email sending) are modelled
  as boolean outcome parameters.
-/

deriving instance DecidableEq for Except

namespace Zust

/-! ## Data model: the `account` table -/

/-- Enum `account_status` of the schema: `inactive | active | banned | locked`.
The password-registration insert leaves the column at its default,
which the schema declares as `inactive`. -/
inductive AccountStatus
  | inactive
  | active
  | banned
  | locked
deriving DecidableEq, Repr

/-- One row of the `account` table, restricted to the columns the
authentication core reads or writes. `accountId` is the canonical
string form of the UUID primary key. -/
structure Account where
  accountId : String
  email : String
  username : String
  password : Option String
  avatar : String
  status : AccountStatus
  oauthProvider : Option String
  oauthProviderId : Option String
  tokenVersion : Int
deriving DecidableEq, Repr

/-- The account table: the only persistent state the auth core touches. -/
abbrev Db := List Account

/-- Persistence errors, split the way the Go handlers split them:
`noRows` is the distinguished `sql.ErrNoRows` signal, `other` carries
the message of any other driver error. -/
inductive DbErr
  | noRows
  | other (msg : String)
deriving DecidableEq, Repr

/-- Message text of a persistence error, modelling Go `err.Error()`. -/
def dbErrMessage : DbErr → String
  | .noRows => "sql: no rows in result set"
  | .other m => m

/-! ## Persistence queries (db/query/account.sql) -/

/-- Query `GetAccountByUsername`: first row whose `username` matches,
or `sql.ErrNoRows`. -/
def getAccountByUsername (db : Db) (username : String) : Except DbErr Account :=
  match db.find? (fun a => a.username == username) with
  | some a => .ok a
  | none => .error .noRows

/-- Query `GetTokenVersion`: `SELECT token_version FROM account WHERE account_id = $1`. -/
def getTokenVersion (db : Db) (accountId : String) : Except DbErr Int :=
  match db.find? (fun a => a.accountId == accountId) with
  | some a => .ok a.tokenVersion
  | none => .error .noRows

/-- Query `IncrementTokenVersion`:
`UPDATE account SET token_version = token_version + 1 WHERE account_id = $1`.
An UPDATE that matches no row is not an error, so the model is total. -/
def incrementTokenVersion (db : Db) (accountId : String) : Db :=
  db.map (fun a =>
    if a.accountId == accountId then { a with tokenVersion := a.tokenVersion + 1 } else a)

/-- Query `ActivateAccount`:
`UPDATE account SET status = active WHERE account_id = $1`. -/
def activateAccount (db : Db) (accountId : String) : Db :=
  db.map (fun a => if a.accountId == accountId then { a with status := .active } else a)

/-- Query `IsAccountRegistered`: EXISTS over `(oauth_provider, oauth_provider_id)`. -/
def isAccountRegistered (db : Db) (provider providerId : String) : Bool :=
  db.any (fun a => a.oauthProvider == some provider && a.oauthProviderId == some providerId)

/-- Query `LoginWithOAuth`: row whose `(oauth_provider, oauth_provider_id)` matches. -/
def loginWithOAuth (db : Db) (provider providerId : String) : Except DbErr Account :=
  match db.find? (fun a => a.oauthProvider == some provider && a.oauthProviderId == some providerId) with
  | some a => .ok a
  | none => .error .noRows

/-- Postgres message for a violated unique index, as wrapped by the driver.
The schema declares `idx_unique_email` and `idx_unique_username`. -/
def uniqueViolationMsg (constraintName : String) : String :=
  "pq: duplicate key value violates unique constraint \x22" ++ constraintName ++ "\x22"

/-- The row `CreateAccountWithPassword` inserts: the three given
columns, everything else at its schema default, in particular
`status = inactive` and `token_version = 1`. -/
def newPasswordAccount (newId email username passwordHash : String) : Account :=
  { accountId := newId, email := email, username := username,
    password := some passwordHash, avatar := "avatar.png",
    status := .inactive, oauthProvider := none, oauthProviderId := none,
    tokenVersion := 1 }

/-- Query `CreateAccountWithPassword`:
`INSERT INTO account (email, username, password) VALUES ($1,$2,$3) RETURNING *`.
Uniqueness of email and username is enforced by the unique indexes. -/
def createAccountWithPassword (db : Db) (newId email username passwordHash : String) :
    Except DbErr (Account × Db) :=
  if db.any (fun a => a.email == email) then
    .error (.other (uniqueViolationMsg "idx_unique_email"))
  else if db.any (fun a => a.username == username) then
    .error (.other (uniqueViolationMsg "idx_unique_username"))
  else
    let acc := newPasswordAccount newId email username passwordHash
    .ok (acc, db ++ [acc])

/-- The row `CreateAccountWithOAuth` inserts: `status = active`
immediately, the provider identity stored, `token_version = 1`. -/
def newOAuthAccount (newId email username avatar provider providerId : String) : Account :=
  { accountId := newId, email := email, username := username,
    password := none, avatar := avatar,
    status := .active, oauthProvider := some provider,
    oauthProviderId := some providerId, tokenVersion := 1 }

/-- Query `CreateAccountWithOAuth`:
`INSERT INTO account (email, username, avatar, status, oauth_provider, oauth_provider_id)
VALUES ($1,$2,$3, active, $4,$5) RETURNING *`. -/
def createAccountWithOAuth (db : Db) (newId email username avatar provider providerId : String) :
    Except DbErr (Account × Db) :=
  if db.any (fun a => a.email == email) then
    .error (.other (uniqueViolationMsg "idx_unique_email"))
  else if db.any (fun a => a.username == username) then
    .error (.other (uniqueViolationMsg "idx_unique_username"))
  else
    let acc := newOAuthAccount newId email username avatar provider providerId
    .ok (acc, db ++ [acc])

/-! ## Token codec (service JWTService) -/

/-- Signing algorithm recorded in the JWT header. `HS256` is the HMAC
method the service signs with; `RS256` and `algNone` stand for the
non-HMAC headers rejected by the keyfunc check. -/
inductive Alg
  | HS256
  | RS256
  | algNone
deriving DecidableEq, Repr

/-- Whether the header algorithm is in the HMAC family, modelling the
type assertion on `jwt.SigningMethodHMAC` inside the keyfunc. -/
def Alg.isHMAC : Alg → Bool
  | .HS256 => true
  | _ => false

/-- The claim set of struct `CustomClaims`: the custom fields plus the
registered claims `CreateToken` fills in (`Issuer`, `Subject`,
`IssuedAt`, `ExpiresAt`). -/
structure CustomClaims where
  id : String
  username : String
  avatar : String
  role : String
  tokenType : String
  version : Int
  issuer : String
  subject : String
  issuedAt : Int
  expiresAt : Int
deriving DecidableEq, Repr

/-- A structurally well-formed signed JWT: its claims, the algorithm
named by its header, and the key under which its signature verifies. -/
structure JwtToken where
  claims : CustomClaims
  alg : Alg
  sigKey : String
deriving DecidableEq, Repr

/-- A bearer-token string as received from a client: either not
tokenisable as a JWT at all, or a well-formed signed envelope. -/
inductive TokenInput
  | malformed
  | signed (t : JwtToken)
deriving DecidableEq, Repr

/-- Struct `JWTService`: the symmetric signing key and the two TTLs. -/
structure JWTService where
  secretKey : String
  tokenExpirationTime : Int
  refreshTokenExpirationTime : Int
deriving DecidableEq, Repr

/-- Model of Go `strings.TrimSpace`: drop leading and trailing
whitespace. Implemented over the character list so the kernel can
evaluate it. -/
def trimSpace (s : String) : String :=
  String.mk (((s.toList.dropWhile Char.isWhitespace).reverse.dropWhile Char.isWhitespace).reverse)

/-- The claim set `CreateToken` signs: issuer `Zust`, subject the
account id, issued-at now, expires-at now plus the requested TTL, the
custom fields that the method does not set left at their Go zero value. -/
def mkClaims (accID tokenType : String) (version expiration now : Int) : CustomClaims :=
  { id := accID, username := "", avatar := "", role := "",
    tokenType := tokenType, version := version, issuer := "Zust",
    subject := accID, issuedAt := now, expiresAt := now + expiration }

/-- The signed envelope `CreateToken` produces: the claims under HS256
with the service key. -/
def mkToken (svc : JWTService) (accID tokenType : String) (version expiration now : Int) :
    JwtToken :=
  { claims := mkClaims accID tokenType version expiration now,
    alg := .HS256, sigKey := svc.secretKey }

/-- Method `CreateToken`: rejects a token type other than
`refresh-token` or `access-token` (after trimming), otherwise signs
the claims under HS256 with the service key. -/
def createToken (svc : JWTService) (accID tokenType : String) (version : Int)
    (expiration : Int) (now : Int) : Except String JwtToken :=
  let tt := trimSpace tokenType
  if tt ≠ "refresh-token" ∧ tt ≠ "access-token" then
    .error "invalid token type, only accept refresh-token or access-token"
  else
    .ok (mkToken svc accID tt version expiration now)

/-- Errors of the JWT library parse step, the sentinels the middleware
tests with `errors.Is`. -/
inductive ParseError
  | tokenMalformed
  | unexpectedSigningMethod
  | signatureInvalid
  | tokenExpired
deriving DecidableEq, Repr

/-- The 30 second clock-skew leeway the parser is constructed with. -/
def leeway : Int := 30

/-- Model of `parser.ParseWithClaims` with the HMAC keyfunc: fails on a
malformed string, a non-HMAC header algorithm, a signature that does
not verify under the service key, or an expired token (valid while
`now < expiresAt + leeway`); otherwise yields the embedded claims. -/
def parseWithClaims (secretKey : String) (now : Int) (input : TokenInput) :
    Except ParseError CustomClaims :=
  match input with
  | .malformed => .error .tokenMalformed
  | .signed t =>
    if ¬ t.alg.isHMAC then .error .unexpectedSigningMethod
    else if t.sigKey ≠ secretKey then .error .signatureInvalid
    else if t.claims.expiresAt + leeway ≤ now then .error .tokenExpired
    else .ok t.claims

/-- Hexadecimal digit test, for the canonical UUID format. -/
def isHexDigit (c : Char) : Bool :=
  c.isDigit || ('a' ≤ c && c ≤ 'f') || ('A' ≤ c && c ≤ 'F')

/-- Positions of the dashes in a canonical UUID string. -/
def uuidDashPos (i : Nat) : Bool :=
  i == 8 || i == 13 || i == 18 || i == 23

/-- Model of `uuid.UUID.Scan` on the canonical 36-character form
`xxxxxxxx-xxxx-xxxx-xxxx-xxxxxxxxxxxx`, the form `UUID.String()`
produces and the only form account ids take in this system. -/
def isCanonicalUUID (s : String) : Bool :=
  let cs := s.toList
  cs.length == 36 &&
    cs.enum.all (fun p => if uuidDashPos p.1 then p.2 == '-' else isHexDigit p.2)

/-- Failure modes of method `VerifyToken`, in source order: a parse
error from the library, then the checks of the method body. The claims
type assertion after a successful parse cannot fail (the parser was
handed a `CustomClaims` target), so it has no constructor here. -/
inductive VerifyError
  | parse (e : ParseError)
  | invalidIssuer
  | invalidTokenType
  | invalidAccountID
  | versionLookup (e : DbErr)
  | staleVersion
deriving DecidableEq, Repr

/-- Message text of a verification error, modelling the `err.Error()`
string the middleware interpolates into its fallback response. -/
def verifyErrorMessage : VerifyError → String
  | .parse .tokenMalformed => "token is malformed"
  | .parse .unexpectedSigningMethod => "token is unverifiable: error while executing keyfunc"
  | .parse .signatureInvalid => "token signature is invalid"
  | .parse .tokenExpired => "token has invalid claims: token is expired"
  | .invalidIssuer => "invalid issuer"
  | .invalidTokenType => "invalid token type"
  | .invalidAccountID => "invalid account ID in token"
  | .versionLookup e => "cannot get token version from database: " ++ dbErrMessage e
  | .staleVersion => "token version is not valid"

/-- Method `VerifyToken`: parse, then check issuer `Zust`, token type
in `{refresh-token, access-token}`, a scannable account id, and
finally compare the embedded version against the version the store
currently holds for the subject (`getVersion` injects the
`GetTokenVersion` query, so persistence failures can be modelled).
A mismatch is the stale-version failure. -/
def verifyToken (svc : JWTService) (getVersion : String → Except DbErr Int) (now : Int)
    (input : TokenInput) : Except VerifyError CustomClaims :=
  match parseWithClaims svc.secretKey now input with
  | .error e => .error (.parse e)
  | .ok claims =>
    if claims.issuer ≠ "Zust" then .error .invalidIssuer
    else if claims.tokenType ≠ "refresh-token" ∧ claims.tokenType ≠ "access-token" then
      .error .invalidTokenType
    else if ¬ isCanonicalUUID claims.id then .error .invalidAccountID
    else
      match getVersion claims.id with
      | .error e => .error (.versionLookup e)
      | .ok version =>
        if version ≠ claims.version then .error .staleVersion
        else .ok claims

/-! ## Authentication middleware -/

/-- An error response written by `WriteError`: HTTP status plus message. -/
structure HttpError where
  status : Nat
  message : String
deriving DecidableEq, Repr

/-- Outcome of the middleware: either the claims are stashed in the
request context and the wrapped handler runs, or an error response is
written and the handler is never reached. -/
inductive AuthOutcome
  | pass (claims : CustomClaims)
  | reject (e : HttpError)
deriving DecidableEq, Repr

/-- The one endpoint on which refresh tokens are accepted. -/
def refreshPath : String := "/auth/token/refresh"

/-- Method `AuthMiddleware` (the variant with the per-endpoint
token-kind policy): a missing or non-Bearer Authorization header is
401; a verification failure maps expired to 401, malformed to 400, and
every other failure to the 400 fallback carrying the error message;
on success the token kind must suit the path, refresh tokens only on
the refresh endpoint and access tokens only elsewhere, otherwise 400. -/
def authMiddleware (svc : JWTService) (getVersion : String → Except DbErr Int) (now : Int)
    (authHeader : Option TokenInput) (path : String) : AuthOutcome :=
  match authHeader with
  | none => .reject ⟨401, "Missing request header"⟩
  | some input =>
    match verifyToken svc getVersion now input with
    | .error (.parse .tokenExpired) => .reject ⟨401, "Access token expired"⟩
    | .error (.parse .tokenMalformed) =>
      .reject ⟨400, "Invalid access token: token is malformed"⟩
    | .error e => .reject ⟨400, "Invalid access token: " ++ verifyErrorMessage e⟩
    | .ok claims =>
      if (claims.tokenType = "refresh-token" ∧ path = refreshPath)
          ∨ (claims.tokenType = "access-token" ∧ path ≠ refreshPath) then
        .pass claims
      else
        .reject ⟨400, "Invalid access token: unsuitable token type for this request"⟩

/-! ## Credential hasher and HTTP layer -/

/-- Model of `util.BcryptHash`, an idealisation of the bcrypt library
contract: hashing yields an opaque digest from which the plaintext is
recoverable only by comparison. The collision-free idealisation tags
the plaintext with a bcrypt header. -/
def bcryptHash (plaintext : String) : String :=
  "$2a$10$" ++ plaintext

/-- Model of `util.BcryptCompare` under the same idealisation: the
comparison succeeds exactly on the plaintext the digest was built
from, and a malformed digest simply compares false. -/
def bcryptCompare (digest plaintext : String) : Bool :=
  digest == bcryptHash plaintext

/-- Model of `service.GenerateMediaLink`: an opaque link derived from
the account id, file type and file name. The exact URL format carries
no weight in the auth core; only that it is a pure function of its
arguments. -/
def generateMediaLink (accID fileType filename : String) : String :=
  "/media/" ++ accID ++ ":" ++ fileType ++ ":" ++ filename

/-- Response body of a successful login (struct `loginResponse`):
user info plus one access token and one refresh token. -/
structure LoginResponse where
  id : String
  username : String
  email : String
  avatar : String
  accessToken : JwtToken
  refreshToken : JwtToken
deriving DecidableEq, Repr

/-- Bodies the auth handlers write: a bare message, a full login
payload, or the refresh payload `{access_token: ...}` which carries
exactly one token and no refresh token. -/
inductive RespBody
  | message (s : String)
  | login (r : LoginResponse)
  | accessTokenOnly (token : JwtToken)
deriving DecidableEq, Repr

/-- An HTTP response: status code and body. -/
structure Response where
  status : Nat
  body : RespBody
deriving DecidableEq, Repr

/-- Model of Go `strings.Contains`: `splitOn` yields more than one
piece exactly when the pattern occurs in the string. -/
def containsSubstr (s pat : String) : Bool :=
  (s.splitOn pat).length > 1

/-- Handler `HandleLogin` (POST /auth/login), after body decoding and
validation: look the account up by username (no row is the uniform
credential error, any other driver failure is 500), require active
status, require a password column, compare the bcrypt digest, then
mint one access token and one refresh token at the stored
`token_version`. Reads only; never writes the store. -/
def handleLogin (svc : JWTService) (db : Db) (now : Int) (username password : String) :
    Response :=
  match getAccountByUsername db username with
  | .error .noRows => ⟨400, .message "Invalid username or password"⟩
  | .error (.other _) => ⟨500, .message "Internal server error"⟩
  | .ok account =>
    if account.status ≠ AccountStatus.active then
      ⟨403, .message "Account is not active"⟩
    else
      match account.password with
      | none => ⟨400, .message "Account does not have a password, please login with OAuth provider"⟩
      | some digest =>
        if ¬ bcryptCompare digest password then
          ⟨400, .message "Invalid username or password"⟩
        else
          match createToken svc account.accountId "access-token" account.tokenVersion
              svc.tokenExpirationTime now with
          | .error _ => ⟨500, .message "Internal server error"⟩
          | .ok accessToken =>
            match createToken svc account.accountId "refresh-token" account.tokenVersion
                svc.refreshTokenExpirationTime now with
            | .error _ => ⟨500, .message "Internal server error"⟩
            | .ok refreshToken =>
              ⟨200, .login
                { id := account.accountId, username := account.username,
                  email := account.email,
                  avatar := generateMediaLink account.accountId "avatar" "avatar.png",
                  accessToken := accessToken, refreshToken := refreshToken }⟩

/-- Handler `HandleRegister` (POST /auth/register), after body decoding
and validation: hash the password, insert the account (on a constraint
violation the handler greps the driver message for the literal
constraint names it expects), then create the user file repository and
send the verification email; either failing yields 500, but only
failures of the insert itself leave the store without the account.
`newId` is the UUID the database generates for the row; `storageOk`
and `emailOk` are the outcomes of the two external effects. -/
def handleRegister (db : Db) (newId email username password : String)
    (storageOk emailOk : Bool) : Db × Response :=
  match createAccountWithPassword db newId email username (bcryptHash password) with
  | .error e =>
    if containsSubstr (dbErrMessage e) "accounts_email_key" then
      (db, ⟨400, .message "Email is already taken"⟩)
    else if containsSubstr (dbErrMessage e) "accounts_username_key" then
      (db, ⟨400, .message "Username is already taken"⟩)
    else
      (db, ⟨500, .message "Failed to create account"⟩)
  | .ok (_, dbAfter) =>
    if ¬ storageOk then (dbAfter, ⟨500, .message "Internal server error"⟩)
    else if ¬ emailOk then
      (dbAfter, ⟨500, .message "Account created successfully, but failed to send verification email"⟩)
    else
      (dbAfter, ⟨200, .message "Account created successfully"⟩)

/-- External identity fetched from the OAuth provider (struct `userData`). -/
structure UserData where
  id : String
  username : String
  avatar : String
  email : String
deriving DecidableEq, Repr

/-- Handler `handleOAuth`, the reconciliation step of the callback.
If `(provider, providerId)` is registered: load that account, require
active status, issue the token pair, respond 200; nothing is written.
Otherwise: insert a new active account carrying the provider identity,
issue the token pair, create the user file repository, a failure of
which is 500 although the inserted row stays, then fire the avatar
download whose result the source drops (`downloadOk` is ignored), and
respond 200 with user info and both tokens. `newId` is the generated
row id, `createRepoOk` the `CreateUserRepo` outcome. -/
def handleOAuth (svc : JWTService) (db : Db) (now : Int) (user : UserData)
    (provider newId : String) (createRepoOk : Bool) (_downloadOk : Bool) : Db × Response :=
  if isAccountRegistered db provider user.id then
    match loginWithOAuth db provider user.id with
    | .error _ => (db, ⟨500, .message "Internal server error"⟩)
    | .ok account =>
      if account.status ≠ AccountStatus.active then
        (db, ⟨403, .message "Account is not active"⟩)
      else
        match createToken svc account.accountId "access-token" account.tokenVersion
            svc.tokenExpirationTime now with
        | .error _ => (db, ⟨500, .message "Internal server error"⟩)
        | .ok accessToken =>
          match createToken svc account.accountId "refresh-token" account.tokenVersion
              svc.refreshTokenExpirationTime now with
          | .error _ => (db, ⟨500, .message "Internal server error"⟩)
          | .ok refreshToken =>
            (db, ⟨200, .login
              { id := account.accountId, username := account.username,
                email := account.email,
                avatar := generateMediaLink account.accountId "avatar" "avatar.png",
                accessToken := accessToken, refreshToken := refreshToken }⟩)
  else
    match createAccountWithOAuth db newId user.email user.username user.avatar provider user.id with
    | .error e =>
      if containsSubstr (dbErrMessage e) "accounts_email_key" then
        (db, ⟨400, .message "Email is already taken"⟩)
      else if containsSubstr (dbErrMessage e) "accounts_username_key" then
        (db, ⟨400, .message "Username is already taken"⟩)
      else
        (db, ⟨500, .message "Failed to create account"⟩)
    | .ok (account, dbAfter) =>
      match createToken svc account.accountId "access-token" account.tokenVersion
          svc.tokenExpirationTime now with
      | .error _ => (dbAfter, ⟨500, .message "Internal server error"⟩)
      | .ok accessToken =>
        match createToken svc account.accountId "refresh-token" account.tokenVersion
            svc.refreshTokenExpirationTime now with
        | .error _ => (dbAfter, ⟨500, .message "Internal server error"⟩)
        | .ok refreshToken =>
          if ¬ createRepoOk then (dbAfter, ⟨500, .message "Internal server error"⟩)
          else
            (dbAfter, ⟨200, .login
              { id := account.accountId, username := account.username,
                email := account.email,
                avatar := generateMediaLink account.accountId "avatar" "avatar.png",
                accessToken := accessToken, refreshToken := refreshToken }⟩)

/-- Handler `HandleRefreshToken` (POST /auth/token/refresh), reached
only through the middleware, which stashed the verified claims of the
presented refresh token in the context: scan the account id, increment
the stored `token_version` to burn every outstanding token, then mint
one new access token at the embedded version plus one. The response
carries only the access token. -/
def handleRefreshToken (svc : JWTService) (db : Db) (now : Int) (claims : CustomClaims) :
    Db × Response :=
  if ¬ isCanonicalUUID claims.id then
    (db, ⟨500, .message "Internal server error"⟩)
  else
    let dbAfter := incrementTokenVersion db claims.id
    match createToken svc claims.id "access-token" (claims.version + 1)
        svc.tokenExpirationTime now with
    | .error _ => (dbAfter, ⟨500, .message "Internal server error"⟩)
    | .ok newAccessToken => (dbAfter, ⟨200, .accessTokenOnly newAccessToken⟩)

/-- Handler `HandleLogout` (POST /auth/logout), reached only through
the middleware: increment the stored `token_version`, invalidating all
outstanding tokens of the account. -/
def handleLogout (db : Db) (claims : CustomClaims) : Db × Response :=
  if ¬ isCanonicalUUID claims.id then
    (db, ⟨500, .message "Internal server error"⟩)
  else
    (incrementTokenVersion db claims.id, ⟨200, .message "Logged out successfully"⟩)

/-! ## Verification preconditions -/

/-- The parse-level preconditions under which a signed token passes
`ParseWithClaims` at time `now`: HMAC header, signature under the
service key, not yet expired modulo leeway. -/
def parseableAt (svc : JWTService) (now : Int) (t : JwtToken) : Prop :=
  t.alg = Alg.HS256 ∧ t.sigKey = svc.secretKey ∧ now < t.claims.expiresAt + leeway

instance (svc : JWTService) (now : Int) (t : JwtToken) : Decidable (parseableAt svc now t) :=
  inferInstanceAs (Decidable (_ ∧ _ ∧ _))

/-- The claim-level checks of the `VerifyToken` body: issuer `Zust`,
a legal token type, and a scannable account id. -/
def claimsShapeOk (c : CustomClaims) : Prop :=
  c.issuer = "Zust" ∧ (c.tokenType = "refresh-token" ∨ c.tokenType = "access-token") ∧
    isCanonicalUUID c.id = true

instance (c : CustomClaims) : Decidable (claimsShapeOk c) :=
  inferInstanceAs (Decidable (_ ∧ _ ∧ _))

/-! ## Helper lemmas -/

theorem parseWithClaims_ok (svc : JWTService) (now : Int) (t : JwtToken)
    (h : parseableAt svc now t) :
    parseWithClaims svc.secretKey now (.signed t) = .ok t.claims := by
  obtain ⟨h1, h2, h3⟩ := h
  simp [parseWithClaims, h1, h2, Alg.isHMAC, not_le.mpr h3]

theorem verifyToken_eq_of_shape (svc : JWTService) (g : String → Except DbErr Int)
    (now : Int) (t : JwtToken) (hp : parseableAt svc now t) (hs : claimsShapeOk t.claims) :
    verifyToken svc g now (.signed t) =
      match g t.claims.id with
      | .error e => .error (.versionLookup e)
      | .ok version =>
        if version ≠ t.claims.version then .error .staleVersion else .ok t.claims := by
  obtain ⟨hi, ht, hu⟩ := hs
  unfold verifyToken
  rw [parseWithClaims_ok svc now t hp]
  simp only [hi, hu]
  rcases ht with ht | ht <;> simp [ht]

theorem verifyToken_ok_of (svc : JWTService) (g : String → Except DbErr Int)
    (now : Int) (t : JwtToken) (hp : parseableAt svc now t) (hs : claimsShapeOk t.claims)
    (hg : g t.claims.id = .ok t.claims.version) :
    verifyToken svc g now (.signed t) = .ok t.claims := by
  rw [verifyToken_eq_of_shape svc g now t hp hs, hg]
  simp

theorem verifyToken_stale_of (svc : JWTService) (g : String → Except DbErr Int)
    (now : Int) (t : JwtToken) (v : Int) (hp : parseableAt svc now t)
    (hs : claimsShapeOk t.claims) (hg : g t.claims.id = .ok v)
    (hne : v ≠ t.claims.version) :
    verifyToken svc g now (.signed t) = .error .staleVersion := by
  rw [verifyToken_eq_of_shape svc g now t hp hs, hg]
  simp [hne]

theorem verifyToken_lookupErr_of (svc : JWTService) (g : String → Except DbErr Int)
    (now : Int) (t : JwtToken) (e : DbErr) (hp : parseableAt svc now t)
    (hs : claimsShapeOk t.claims) (hg : g t.claims.id = .error e) :
    verifyToken svc g now (.signed t) = .error (.versionLookup e) := by
  rw [verifyToken_eq_of_shape svc g now t hp hs, hg]

/-- Inversion: a successful verification pins the claims shape and the
stored version: the store answered exactly the embedded version. -/
theorem verifyToken_ok_inv (svc : JWTService) (g : String → Except DbErr Int)
    (now : Int) (input : TokenInput) (c : CustomClaims)
    (h : verifyToken svc g now input = .ok c) :
    claimsShapeOk c ∧ g c.id = .ok c.version := by
  unfold verifyToken at h
  cases hpar : parseWithClaims svc.secretKey now input with
  | error e => rw [hpar] at h; exact absurd h (by simp)
  | ok claims =>
    rw [hpar] at h
    simp only at h
    split_ifs at h with hi ht hu
    cases hg : g claims.id with
    | error e => rw [hg] at h; exact absurd h (by simp)
    | ok version =>
      rw [hg] at h
      dsimp only at h
      split_ifs at h with hv
      obtain rfl : claims = c := by simpa using h
      push_neg at ht hv
      subst hv
      refine ⟨⟨not_ne_iff.mp hi, ?_, hu⟩, hg⟩
      by_cases hr : claims.tokenType = "refresh-token"
      · exact Or.inl hr
      · exact Or.inr (ht hr)

/-- Inversion of a middleware pass: the token verified to exactly the
claims handed to the handler, and the kind policy held for the path. -/
theorem authMiddleware_pass_inv (svc : JWTService) (g : String → Except DbErr Int)
    (now : Int) (input : TokenInput) (path : String) (c : CustomClaims)
    (h : authMiddleware svc g now (some input) path = .pass c) :
    verifyToken svc g now input = .ok c ∧
      ((c.tokenType = "refresh-token" ∧ path = refreshPath)
        ∨ (c.tokenType = "access-token" ∧ path ≠ refreshPath)) := by
  unfold authMiddleware at h
  dsimp only at h
  cases hv : verifyToken svc g now input with
  | error e =>
    exfalso
    rw [hv] at h
    rcases e with pe | _ | _ | _ | _ | _
    · rcases pe <;> simp at h
    all_goals simp at h
  | ok claims =>
    rw [hv] at h
    dsimp only at h
    split_ifs at h with hpol
    obtain rfl : claims = c := by simpa using h
    exact ⟨rfl, hpol⟩

/-- Incrementing the version of an account shifts exactly the stored
version that `GetTokenVersion` reads for that account. -/
theorem getTokenVersion_increment (db : Db) (accountId : String) (v : Int)
    (h : getTokenVersion db accountId = .ok v) :
    getTokenVersion (incrementTokenVersion db accountId) accountId = .ok (v + 1) := by
  unfold getTokenVersion at h
  unfold getTokenVersion incrementTokenVersion
  rw [List.find?_map]
  have hfun : ((fun x => x.accountId == accountId) ∘
      (fun a => if a.accountId == accountId then { a with tokenVersion := a.tokenVersion + 1 } else a))
      = (fun a : Account => a.accountId == accountId) := by
    funext a
    by_cases hb : (a.accountId == accountId) = true <;> simp [Function.comp, hb]
  rw [hfun]
  cases hf : List.find? (fun a => a.accountId == accountId) db with
  | none => rw [hf] at h; exact absurd h (by simp)
  | some a =>
    rw [hf] at h
    obtain rfl : a.tokenVersion = v := by simpa using h
    have hpa : (a.accountId == accountId) = true :=
      List.find?_some (p := fun x => x.accountId == accountId) (a := a) hf
    have heq : a.accountId = accountId := by simpa using hpa
    simp [heq]

/-- Looking a username up after an insert: when no existing row holds
the username, the lookup finds exactly the inserted row. -/
theorem getAccountByUsername_append_fresh (db : Db) (acc : Account) (u : String)
    (hfresh : ∀ a ∈ db, a.username ≠ u) (hacc : acc.username = u) :
    getAccountByUsername (db ++ [acc]) u = .ok acc := by
  unfold getAccountByUsername
  rw [List.find?_append]
  have hnone : List.find? (fun a => a.username == u) db = none := by
    rw [List.find?_eq_none]
    intro x hx
    simpa using hfresh x hx
  rw [hnone]
  simp [List.find?_cons, hacc]

/-- Activation commutes with the username lookup: the found row is the
same row with its status set to active when its id matches. -/
theorem getAccountByUsername_activate (db : Db) (accId u : String) (acc : Account)
    (h : getAccountByUsername db u = .ok acc) :
    getAccountByUsername (activateAccount db accId) u =
      .ok (if acc.accountId = accId then { acc with status := AccountStatus.active } else acc) := by
  unfold getAccountByUsername at h
  unfold getAccountByUsername activateAccount
  rw [List.find?_map]
  have hfun : ((fun x => x.username == u) ∘
      (fun a => if a.accountId == accId then { a with status := AccountStatus.active } else a))
      = (fun a : Account => a.username == u) := by
    funext a
    by_cases hb : (a.accountId == accId) = true <;> simp [Function.comp, hb]
  rw [hfun]
  cases hf : List.find? (fun a => a.username == u) db with
  | none => rw [hf] at h; exact absurd h (by simp)
  | some b =>
    rw [hf] at h
    obtain rfl : b = acc := by simpa using h
    by_cases hb : b.accountId = accId <;> simp [hb]

/-- A provider identity absent from every row makes `IsAccountRegistered` false. -/
theorem isAccountRegistered_eq_false (db : Db) (provider providerId : String) :
    isAccountRegistered db provider providerId = false ↔
      ∀ a ∈ db, ¬(a.oauthProvider = some provider ∧ a.oauthProviderId = some providerId) := by
  unfold isAccountRegistered
  rw [List.any_eq_false]
  constructor
  · intro h a ha hcontra
    have := h a ha
    simp [hcontra.1, hcontra.2] at this
  · intro h a ha
    have := h a ha
    simp only [Bool.and_eq_true, beq_iff_eq, not_and] at this ⊢
    intro h1 h2
    exact this h1 h2

/-- After inserting a row carrying the provider identity, `IsAccountRegistered` is true. -/
theorem isAccountRegistered_append (db : Db) (acc : Account) (provider providerId : String)
    (h1 : acc.oauthProvider = some provider) (h2 : acc.oauthProviderId = some providerId) :
    isAccountRegistered (db ++ [acc]) provider providerId = true := by
  unfold isAccountRegistered
  rw [List.any_append]
  simp [List.any_cons, h1, h2]

/-- When the provider identity is fresh in `db`, the OAuth login on the
extended table finds exactly the inserted row. -/
theorem loginWithOAuth_append_fresh (db : Db) (acc : Account) (provider providerId : String)
    (hfresh : isAccountRegistered db provider providerId = false)
    (h1 : acc.oauthProvider = some provider) (h2 : acc.oauthProviderId = some providerId) :
    loginWithOAuth (db ++ [acc]) provider providerId = .ok acc := by
  unfold loginWithOAuth
  rw [List.find?_append]
  have hnone : List.find?
      (fun a => a.oauthProvider == some provider && a.oauthProviderId == some providerId) db
      = none := by
    rw [List.find?_eq_none]
    intro x hx
    have := (isAccountRegistered_eq_false db provider providerId).mp hfresh x hx
    simp only [Bool.and_eq_true, beq_iff_eq, not_and] at this ⊢
    intro hp hq
    exact this hp hq
  rw [hnone]
  simp [List.find?_cons, h1, h2]

theorem trimSpace_access : trimSpace "access-token" = "access-token" := by decide

theorem trimSpace_refresh : trimSpace "refresh-token" = "refresh-token" := by decide

/-- Creating an access token never hits the invalid-type branch. -/
theorem createToken_access (svc : JWTService) (accID : String) (v exp now : Int) :
    createToken svc accID "access-token" v exp now =
      .ok (mkToken svc accID "access-token" v exp now) := by
  simp [createToken, trimSpace_access]

/-- Creating a refresh token never hits the invalid-type branch. -/
theorem createToken_refresh (svc : JWTService) (accID : String) (v exp now : Int) :
    createToken svc accID "refresh-token" v exp now =
      .ok (mkToken svc accID "refresh-token" v exp now) := by
  simp [createToken, trimSpace_refresh]

/-- Inversion of a successful verification of a signed envelope: the
returned claims are exactly the embedded ones, and the parse-level
preconditions held at the verification time. -/
theorem verifyToken_signed_ok_inv (svc : JWTService) (g : String → Except DbErr Int)
    (now : Int) (t : JwtToken) (c : CustomClaims)
    (h : verifyToken svc g now (.signed t) = .ok c) :
    c = t.claims ∧ parseableAt svc now t := by
  unfold verifyToken at h
  cases hpar : parseWithClaims svc.secretKey now (.signed t) with
  | error e => rw [hpar] at h; exact absurd h (by simp)
  | ok claims =>
    rw [hpar] at h
    dsimp only at h
    unfold parseWithClaims at hpar
    dsimp only at hpar
    split_ifs at hpar with h1 h2 h3
    obtain rfl : t.claims = claims := by simpa using hpar
    split_ifs at h with hi ht hu
    cases hg : g t.claims.id with
    | error e => rw [hg] at h; exact absurd h (by simp)
    | ok version =>
      rw [hg] at h
      dsimp only at h
      split_ifs at h with hv
      obtain rfl : c = t.claims := by simpa using h.symm
      have halg : t.alg = Alg.HS256 := by
        cases hA : t.alg
        · rfl
        · rw [hA] at h1; exact absurd h1 (by simp [Alg.isHMAC])
        · rw [hA] at h1; exact absurd h1 (by simp [Alg.isHMAC])
      exact ⟨rfl, halg, not_ne_iff.mp h2, by omega⟩

/-- Freshness of a column value makes the uniqueness scan false. -/
theorem any_email_eq_false (db : Db) (email : String) (h : ∀ a ∈ db, a.email ≠ email) :
    (db.any (fun a => a.email == email)) = false := by
  rw [List.any_eq_false]
  intro a ha
  simpa using h a ha

theorem any_username_eq_false (db : Db) (username : String)
    (h : ∀ a ∈ db, a.username ≠ username) :
    (db.any (fun a => a.username == username)) = false := by
  rw [List.any_eq_false]
  intro a ha
  simpa using h a ha

/-- A password insert on fresh email and username succeeds and appends
exactly the default-initialised row. -/
theorem createAccountWithPassword_fresh (db : Db) (newId email username passwordHash : String)
    (hfe : ∀ a ∈ db, a.email ≠ email) (hfu : ∀ a ∈ db, a.username ≠ username) :
    createAccountWithPassword db newId email username passwordHash =
      .ok (newPasswordAccount newId email username passwordHash,
        db ++ [newPasswordAccount newId email username passwordHash]) := by
  unfold createAccountWithPassword
  rw [any_email_eq_false db email hfe, any_username_eq_false db username hfu]
  simp

/-- An OAuth insert on fresh email and username succeeds and appends
exactly the active row carrying the provider identity. -/
theorem createAccountWithOAuth_fresh (db : Db)
    (newId email username avatar provider providerId : String)
    (hfe : ∀ a ∈ db, a.email ≠ email) (hfu : ∀ a ∈ db, a.username ≠ username) :
    createAccountWithOAuth db newId email username avatar provider providerId =
      .ok (newOAuthAccount newId email username avatar provider providerId,
        db ++ [newOAuthAccount newId email username avatar provider providerId]) := by
  unfold createAccountWithOAuth
  rw [any_email_eq_false db email hfe, any_username_eq_false db username hfu]
  simp

/-! ## Concrete fixtures for witnesses and counterexamples -/

/-- A concrete JWT service configuration. -/
def svcEx : JWTService :=
  { secretKey := "k", tokenExpirationTime := 15, refreshTokenExpirationTime := 10080 }

/-- A concrete canonical account id. -/
def idEx : String := "00000000-0000-0000-0000-000000000001"

/-- A concrete active password account whose stored version is 2. -/
def accEx : Account :=
  { accountId := idEx, email := "a@x.com", username := "a",
    password := some (bcryptHash "pw"), avatar := "avatar.png",
    status := .active, oauthProvider := none, oauthProviderId := none,
    tokenVersion := 2 }

/-- A one-account table. -/
def dbEx : Db := [accEx]

/-- Claims of an access token for `accEx` embedding the stale version 1. -/
def staleClaimsEx : CustomClaims :=
  { id := idEx, username := "", avatar := "", role := "",
    tokenType := "access-token", version := 1, issuer := "Zust",
    subject := idEx, issuedAt := 0, expiresAt := 900 }

/-- An access token for `accEx` embedding the stale version 1. -/
def staleTokEx : JwtToken :=
  { claims := staleClaimsEx, alg := .HS256, sigKey := "k" }

/-- Claims of a refresh token for `accEx` embedding the current version 2. -/
def refreshClaimsEx : CustomClaims :=
  { id := idEx, username := "", avatar := "", role := "",
    tokenType := "refresh-token", version := 2, issuer := "Zust",
    subject := idEx, issuedAt := 0, expiresAt := 900 }

/-- A refresh token for `accEx` embedding the current version 2. -/
def refreshTokEx : JwtToken :=
  { claims := refreshClaimsEx, alg := .HS256, sigKey := "k" }

/-- Claims of an access token for `accEx` embedding the current version 2. -/
def accessClaimsEx : CustomClaims :=
  { id := idEx, username := "", avatar := "", role := "",
    tokenType := "access-token", version := 2, issuer := "Zust",
    subject := idEx, issuedAt := 0, expiresAt := 900 }

/-- An access token for `accEx` embedding the current version 2. -/
def accessTokEx : JwtToken :=
  { claims := accessClaimsEx, alg := .HS256, sigKey := "k" }

/-- A version lookup that fails with a driver error other than no-rows. -/
def failingLookupEx : String → Except DbErr Int :=
  fun _ => .error (.other "connection refused")

/-! ## Claims -/

/-- C1, counterexample: on a concrete request bearing a token whose
embedded version (1) no longer equals the stored version (2),
verification does fail with the stale-version error, but the HTTP
status the middleware writes is 400, not the claimed 401. -/
theorem c1_counterexample :
    verifyToken svcEx (getTokenVersion dbEx) 0 (.signed staleTokEx) = .error .staleVersion ∧
    authMiddleware svcEx (getTokenVersion dbEx) 0 (some (.signed staleTokEx)) "/videos/abc"
      = .reject ⟨400, "Invalid access token: token version is not valid"⟩ := by
  constructor
  · decide
  · decide

/-- C1 (amended): a stale-version verification failure is answered
with status 400 through the generic invalid-token fallback, not 401;
expired tokens yield 401, while malformed and wrong-kind tokens yield
400, as claimed. -/
theorem c1_token_error_status_mapping (svc : JWTService) (g : String → Except DbErr Int)
    (now : Int) (input : TokenInput) (path : String) :
    (verifyToken svc g now input = .error .staleVersion →
      authMiddleware svc g now (some input) path
        = .reject ⟨400, "Invalid access token: token version is not valid"⟩) ∧
    (verifyToken svc g now input = .error (.parse .tokenExpired) →
      authMiddleware svc g now (some input) path
        = .reject ⟨401, "Access token expired"⟩) ∧
    (verifyToken svc g now input = .error (.parse .tokenMalformed) →
      authMiddleware svc g now (some input) path
        = .reject ⟨400, "Invalid access token: token is malformed"⟩) ∧
    (∀ c, verifyToken svc g now input = .ok c →
      ¬((c.tokenType = "refresh-token" ∧ path = refreshPath)
        ∨ (c.tokenType = "access-token" ∧ path ≠ refreshPath)) →
      authMiddleware svc g now (some input) path
        = .reject ⟨400, "Invalid access token: unsuitable token type for this request"⟩) := by
  refine ⟨?_, ?_, ?_, ?_⟩
  · intro h
    unfold authMiddleware
    dsimp only
    rw [h]
    rfl
  · intro h
    unfold authMiddleware
    dsimp only
    rw [h]
  · intro h
    unfold authMiddleware
    dsimp only
    rw [h]
  · intro c hok hpol
    unfold authMiddleware
    dsimp only
    rw [hok]
    dsimp only
    rw [if_neg hpol]

/-- C1 witness: the amended mapping applied to the concrete stale
request of the counterexample. -/
theorem c1_token_error_status_mapping_witness :
    authMiddleware svcEx (getTokenVersion dbEx) 0 (some (.signed staleTokEx)) "/videos/abc"
      = .reject ⟨400, "Invalid access token: token version is not valid"⟩ :=
  (c1_token_error_status_mapping svcEx (getTokenVersion dbEx) 0
    (.signed staleTokEx) "/videos/abc").1 (by decide)

/-- C4, counterexample: on a concrete request whose version lookup
fails with a persistence error that is not the not-found signal, the
middleware answers 400, a client error, not a retryable 5xx. -/
theorem c4_counterexample :
    authMiddleware svcEx failingLookupEx 0 (some (.signed accessTokEx)) "/videos/abc"
      = .reject ⟨400,
          "Invalid access token: cannot get token version from database: connection refused"⟩ := by
  decide

/-- C4 (amended): a failing version lookup is never silently ignored,
verification always surfaces it as a failure, but the middleware maps
it to a 400 client error carrying the wrapped message, not to a 5xx
server error. -/
theorem c4_lookup_error_not_ignored (svc : JWTService) (g : String → Except DbErr Int)
    (now : Int) (t : JwtToken) (path : String) (e : DbErr)
    (hp : parseableAt svc now t) (hs : claimsShapeOk t.claims)
    (hg : g t.claims.id = .error e) :
    verifyToken svc g now (.signed t) = .error (.versionLookup e) ∧
    authMiddleware svc g now (some (.signed t)) path
      = .reject ⟨400,
          "Invalid access token: "
            ++ ("cannot get token version from database: " ++ dbErrMessage e)⟩ := by
  have hv := verifyToken_lookupErr_of svc g now t e hp hs hg
  refine ⟨hv, ?_⟩
  unfold authMiddleware
  dsimp only
  rw [hv]
  rfl

/-- C4 witness: the amended statement applied to the concrete failing
lookup of the counterexample. -/
theorem c4_lookup_error_not_ignored_witness :
    verifyToken svcEx failingLookupEx 0 (.signed accessTokEx)
      = .error (.versionLookup (.other "connection refused")) ∧
    authMiddleware svcEx failingLookupEx 0 (some (.signed accessTokEx)) "/videos/abc"
      = .reject ⟨400,
          "Invalid access token: "
            ++ ("cannot get token version from database: "
              ++ dbErrMessage (.other "connection refused"))⟩ :=
  c4_lookup_error_not_ignored svcEx failingLookupEx 0 accessTokEx "/videos/abc"
    (.other "connection refused") (by decide) (by decide) (by decide)

/-- C5: for every request that passed verification, the middleware
hands the claims to the handler exactly when the token kind suits the
path, a refresh token on the refresh endpoint or an access token on
any other path, and rejects every other combination with the 400
wrong-token-kind response before the handler is reached. -/
theorem c5_kind_policy (svc : JWTService) (g : String → Except DbErr Int) (now : Int)
    (input : TokenInput) (path : String) (c : CustomClaims)
    (hok : verifyToken svc g now input = .ok c) :
    (authMiddleware svc g now (some input) path = .pass c ↔
      ((c.tokenType = "refresh-token" ∧ path = refreshPath)
        ∨ (c.tokenType = "access-token" ∧ path ≠ refreshPath))) ∧
    (¬((c.tokenType = "refresh-token" ∧ path = refreshPath)
        ∨ (c.tokenType = "access-token" ∧ path ≠ refreshPath)) →
      authMiddleware svc g now (some input) path
        = .reject ⟨400, "Invalid access token: unsuitable token type for this request"⟩) := by
  unfold authMiddleware
  dsimp only
  rw [hok]
  dsimp only
  constructor
  · constructor
    · intro h
      by_contra hpol
      rw [if_neg hpol] at h
      exact absurd h (by simp)
    · intro hpol
      rw [if_pos hpol]
  · intro hpol
    rw [if_neg hpol]

/-- C5 witness: a concrete refresh token on the refresh endpoint
passes, by the left-to-right use of the policy equivalence. -/
theorem c5_kind_policy_witness :
    authMiddleware svcEx (getTokenVersion dbEx) 0 (some (.signed refreshTokEx)) refreshPath
      = .pass refreshTokEx.claims :=
  ((c5_kind_policy svcEx (getTokenVersion dbEx) 0 (.signed refreshTokEx) refreshPath
    refreshTokEx.claims (by decide)).1).mpr (by decide)

/-- C2: verification accepts a token only when the stored version for
its subject equals the embedded one, and after one increment of the
stored version every token verified before the increment, of either
kind, fails verification with the stale-version error. -/
theorem c2_increment_invalidates (svc : JWTService) (db : Db) (now now2 : Int) (t : JwtToken)
    (hok : verifyToken svc (getTokenVersion db) now (.signed t) = .ok t.claims)
    (hexp2 : now2 < t.claims.expiresAt + leeway) :
    getTokenVersion db t.claims.id = .ok t.claims.version ∧
    verifyToken svc (getTokenVersion (incrementTokenVersion db t.claims.id)) now2 (.signed t)
      = .error .staleVersion := by
  obtain ⟨hs, hg⟩ := verifyToken_ok_inv svc (getTokenVersion db) now (.signed t) t.claims hok
  obtain ⟨-, hp⟩ := verifyToken_signed_ok_inv svc (getTokenVersion db) now t t.claims hok
  refine ⟨hg, ?_⟩
  have hp2 : parseableAt svc now2 t := ⟨hp.1, hp.2.1, hexp2⟩
  have hg2 := getTokenVersion_increment db t.claims.id t.claims.version hg
  exact verifyToken_stale_of svc _ now2 t (t.claims.version + 1) hp2 hs hg2 (by omega)

/-- C2 witness: a concrete valid access token at version 2 fails with
the stale-version error once the stored version is incremented. -/
theorem c2_increment_invalidates_witness :
    getTokenVersion dbEx accessTokEx.claims.id = .ok accessTokEx.claims.version ∧
    verifyToken svcEx (getTokenVersion (incrementTokenVersion dbEx accessTokEx.claims.id)) 0
      (.signed accessTokEx) = .error .staleVersion :=
  c2_increment_invalidates svcEx dbEx 0 0 accessTokEx (by decide) (by decide)

/-- C6: for every subject, version and positive ttl, parsing a freshly
issued access token round-trips the claims exactly, returning the same
subject, kind access and the same version, provided the store still
answers that version for the subject at verification time. -/
theorem c6_roundtrip (svc : JWTService) (g : String → Except DbErr Int)
    (subject : String) (v ttl now : Int)
    (huuid : isCanonicalUUID subject = true) (httl : 0 < ttl)
    (hg : g subject = .ok v) :
    createToken svc subject "access-token" v ttl now
      = .ok (mkToken svc subject "access-token" v ttl now) ∧
    verifyToken svc g now (.signed (mkToken svc subject "access-token" v ttl now))
      = .ok (mkClaims subject "access-token" v ttl now) ∧
    (mkClaims subject "access-token" v ttl now).id = subject ∧
    (mkClaims subject "access-token" v ttl now).tokenType = "access-token" ∧
    (mkClaims subject "access-token" v ttl now).version = v := by
  refine ⟨createToken_access svc subject v ttl now, ?_, rfl, rfl, rfl⟩
  have hp : parseableAt svc now (mkToken svc subject "access-token" v ttl now) := by
    refine ⟨rfl, rfl, ?_⟩
    dsimp [mkToken, mkClaims, leeway]
    omega
  have hs : claimsShapeOk (mkClaims subject "access-token" v ttl now) :=
    ⟨rfl, Or.inr rfl, by simpa [mkClaims] using huuid⟩
  have hgt : g (mkToken svc subject "access-token" v ttl now).claims.id
      = .ok (mkToken svc subject "access-token" v ttl now).claims.version := by
    simpa [mkToken, mkClaims] using hg
  exact verifyToken_ok_of svc g now (mkToken svc subject "access-token" v ttl now) hp hs hgt

/-- C6 witness: the round trip at a concrete subject, version 2 and
ttl 15 against the concrete store. -/
theorem c6_roundtrip_witness :
    createToken svcEx idEx "access-token" 2 15 0
      = .ok (mkToken svcEx idEx "access-token" 2 15 0) ∧
    verifyToken svcEx (getTokenVersion dbEx) 0 (.signed (mkToken svcEx idEx "access-token" 2 15 0))
      = .ok (mkClaims idEx "access-token" 2 15 0) ∧
    (mkClaims idEx "access-token" 2 15 0).id = idEx ∧
    (mkClaims idEx "access-token" 2 15 0).tokenType = "access-token" ∧
    (mkClaims idEx "access-token" 2 15 0).version = 2 :=
  c6_roundtrip svcEx (getTokenVersion dbEx) idEx 2 15 0 (by decide) (by decide) (by decide)

/-- The refresh handler on verified claims: the store is incremented
for the subject and the response carries exactly the fresh access
token at the embedded version plus one. -/
theorem handleRefreshToken_eq (svc : JWTService) (db : Db) (now1 : Int) (c : CustomClaims)
    (huuid : isCanonicalUUID c.id = true) :
    handleRefreshToken svc db now1 c
      = (incrementTokenVersion db c.id,
        ⟨200, .accessTokenOnly
          (mkToken svc c.id "access-token" (c.version + 1) svc.tokenExpirationTime now1)⟩) := by
  unfold handleRefreshToken
  rw [if_neg (by simp [huuid]), createToken_access]

/-- C3: a call to the refresh endpoint that passed the middleware with
a refresh token increments the stored version from exactly the
embedded version to the embedded version plus one, answers with a new
access token embedding that incremented version, and the refresh token
just used can never verify again: it is stale against the new store. -/
theorem c3_refresh_single_use (svc : JWTService) (db : Db) (now0 now1 now2 : Int) (t : JwtToken)
    (hpass : authMiddleware svc (getTokenVersion db) now0 (some (.signed t)) refreshPath
      = .pass t.claims)
    (hexp2 : now2 < t.claims.expiresAt + leeway) :
    t.claims.tokenType = "refresh-token" ∧
    getTokenVersion db t.claims.id = .ok t.claims.version ∧
    getTokenVersion (handleRefreshToken svc db now1 t.claims).1 t.claims.id
      = .ok (t.claims.version + 1) ∧
    (handleRefreshToken svc db now1 t.claims).2
      = ⟨200, .accessTokenOnly
          (mkToken svc t.claims.id "access-token" (t.claims.version + 1)
            svc.tokenExpirationTime now1)⟩ ∧
    (mkToken svc t.claims.id "access-token" (t.claims.version + 1)
        svc.tokenExpirationTime now1).claims.version = t.claims.version + 1 ∧
    verifyToken svc (getTokenVersion (handleRefreshToken svc db now1 t.claims).1) now2
        (.signed t)
      = .error .staleVersion := by
  obtain ⟨hok, hpol⟩ :=
    authMiddleware_pass_inv svc (getTokenVersion db) now0 (.signed t) refreshPath t.claims hpass
  obtain ⟨hs, hg⟩ := verifyToken_ok_inv svc (getTokenVersion db) now0 (.signed t) t.claims hok
  obtain ⟨-, hp⟩ := verifyToken_signed_ok_inv svc (getTokenVersion db) now0 t t.claims hok
  have hkind : t.claims.tokenType = "refresh-token" := by
    rcases hpol with ⟨h, -⟩ | ⟨-, h⟩
    · exact h
    · exact absurd rfl h
  have hred := handleRefreshToken_eq svc db now1 t.claims hs.2.2
  have hg2 := getTokenVersion_increment db t.claims.id t.claims.version hg
  refine ⟨hkind, hg, ?_, ?_, rfl, ?_⟩
  · rw [hred]
    exact hg2
  · rw [hred]
  · rw [hred]
    exact verifyToken_stale_of svc _ now2 t (t.claims.version + 1)
      ⟨hp.1, hp.2.1, hexp2⟩ hs hg2 (by omega)

/-- C3 witness: the concrete refresh token at version 2 burns itself. -/
theorem c3_refresh_single_use_witness :
    refreshTokEx.claims.tokenType = "refresh-token" ∧
    getTokenVersion dbEx refreshTokEx.claims.id = .ok refreshTokEx.claims.version ∧
    getTokenVersion (handleRefreshToken svcEx dbEx 1 refreshTokEx.claims).1
        refreshTokEx.claims.id
      = .ok (refreshTokEx.claims.version + 1) ∧
    (handleRefreshToken svcEx dbEx 1 refreshTokEx.claims).2
      = ⟨200, .accessTokenOnly
          (mkToken svcEx refreshTokEx.claims.id "access-token" (refreshTokEx.claims.version + 1)
            svcEx.tokenExpirationTime 1)⟩ ∧
    (mkToken svcEx refreshTokEx.claims.id "access-token" (refreshTokEx.claims.version + 1)
        svcEx.tokenExpirationTime 1).claims.version = refreshTokEx.claims.version + 1 ∧
    verifyToken svcEx (getTokenVersion (handleRefreshToken svcEx dbEx 1 refreshTokEx.claims).1) 2
        (.signed refreshTokEx)
      = .error .staleVersion :=
  c3_refresh_single_use svcEx dbEx 0 1 2 refreshTokEx (by decide) (by decide)

/-- C10: the refresh response body is the access-token-only payload,
a single access token and structurally no refresh token, and after the
increment it performs, every token for that subject embedding a
version at most the burnt one, in particular every previously issued
refresh token including the one just used, fails verification with the
stale-version error, leaving the account without a valid refresh
token. -/
theorem c10_refresh_only_access (svc : JWTService) (db : Db) (now0 now1 now2 : Int)
    (t u : JwtToken)
    (hpass : authMiddleware svc (getTokenVersion db) now0 (some (.signed t)) refreshPath
      = .pass t.claims)
    (huid : u.claims.id = t.claims.id)
    (huv : u.claims.version ≤ t.claims.version)
    (hup : parseableAt svc now2 u) (hus : claimsShapeOk u.claims) :
    (handleRefreshToken svc db now1 t.claims).2
      = ⟨200, .accessTokenOnly
          (mkToken svc t.claims.id "access-token" (t.claims.version + 1)
            svc.tokenExpirationTime now1)⟩ ∧
    (mkToken svc t.claims.id "access-token" (t.claims.version + 1)
        svc.tokenExpirationTime now1).claims.tokenType = "access-token" ∧
    verifyToken svc (getTokenVersion (handleRefreshToken svc db now1 t.claims).1) now2
        (.signed u)
      = .error .staleVersion := by
  obtain ⟨hok, -⟩ :=
    authMiddleware_pass_inv svc (getTokenVersion db) now0 (.signed t) refreshPath t.claims hpass
  obtain ⟨hs, hg⟩ := verifyToken_ok_inv svc (getTokenVersion db) now0 (.signed t) t.claims hok
  have hred := handleRefreshToken_eq svc db now1 t.claims hs.2.2
  have hg2 := getTokenVersion_increment db t.claims.id t.claims.version hg
  refine ⟨?_, rfl, ?_⟩
  · rw [hred]
  · rw [hred]
    refine verifyToken_stale_of svc _ now2 u (t.claims.version + 1) hup hus ?_ (by omega)
    rw [huid]
    exact hg2

/-- C10 witness: the used refresh token itself is stale right after
the concrete refresh call. -/
theorem c10_refresh_only_access_witness :
    (handleRefreshToken svcEx dbEx 1 refreshTokEx.claims).2
      = ⟨200, .accessTokenOnly
          (mkToken svcEx refreshTokEx.claims.id "access-token" (refreshTokEx.claims.version + 1)
            svcEx.tokenExpirationTime 1)⟩ ∧
    (mkToken svcEx refreshTokEx.claims.id "access-token" (refreshTokEx.claims.version + 1)
        svcEx.tokenExpirationTime 1).claims.tokenType = "access-token" ∧
    verifyToken svcEx (getTokenVersion (handleRefreshToken svcEx dbEx 1 refreshTokEx.claims).1) 2
        (.signed refreshTokEx)
      = .error .staleVersion :=
  c10_refresh_only_access svcEx dbEx 0 1 2 refreshTokEx refreshTokEx (by decide) rfl
    (by decide) (by decide) (by decide)

/-- A successful password login on an account row: active status and a
matching digest yield 200 with the user info and both tokens. -/
theorem handleLogin_ok_eq (svc : JWTService) (db : Db) (now : Int)
    (username password : String) (acc : Account)
    (hfind : getAccountByUsername db username = .ok acc)
    (hactive : acc.status = AccountStatus.active)
    (hpw : acc.password = some (bcryptHash password)) :
    handleLogin svc db now username password
      = ⟨200, .login
          { id := acc.accountId, username := acc.username, email := acc.email,
            avatar := generateMediaLink acc.accountId "avatar" "avatar.png",
            accessToken :=
              mkToken svc acc.accountId "access-token" acc.tokenVersion
                svc.tokenExpirationTime now,
            refreshToken :=
              mkToken svc acc.accountId "refresh-token" acc.tokenVersion
                svc.refreshTokenExpirationTime now }⟩ := by
  unfold handleLogin
  rw [hfind]
  dsimp only
  rw [if_neg (by simp [hactive]), hpw]
  dsimp only
  rw [if_neg (by simp [bcryptCompare]), createToken_access, createToken_refresh]

/-- A password login on a non-active account row stops at 403 and
issues nothing. -/
theorem handleLogin_inactive_eq (svc : JWTService) (db : Db) (now : Int)
    (username password : String) (acc : Account)
    (hfind : getAccountByUsername db username = .ok acc)
    (hinactive : acc.status ≠ AccountStatus.active) :
    handleLogin svc db now username password
      = ⟨403, .message "Account is not active"⟩ := by
  unfold handleLogin
  rw [hfind]
  dsimp only
  rw [if_pos hinactive]

/-- C7: the password registration path creates the account with status
inactive; a login before activation is answered 403 with the message
`Account is not active` and carries no tokens; after `ActivateAccount`
the same login succeeds and returns an access token and a refresh
token stamped with the stored version 1. -/
theorem c7_register_activate_login (svc : JWTService) (db : Db) (now : Int)
    (newId email username password : String)
    (hfe : ∀ a ∈ db, a.email ≠ email) (hfu : ∀ a ∈ db, a.username ≠ username) :
    (handleRegister db newId email username password true true).2
      = ⟨200, .message "Account created successfully"⟩ ∧
    getAccountByUsername (handleRegister db newId email username password true true).1 username
      = .ok (newPasswordAccount newId email username (bcryptHash password)) ∧
    (newPasswordAccount newId email username (bcryptHash password)).status
      = AccountStatus.inactive ∧
    handleLogin svc (handleRegister db newId email username password true true).1 now
        username password
      = ⟨403, .message "Account is not active"⟩ ∧
    handleLogin svc
        (activateAccount (handleRegister db newId email username password true true).1 newId)
        now username password
      = ⟨200, .login
          { id := newId, username := username, email := email,
            avatar := generateMediaLink newId "avatar" "avatar.png",
            accessToken := mkToken svc newId "access-token" 1 svc.tokenExpirationTime now,
            refreshToken :=
              mkToken svc newId "refresh-token" 1 svc.refreshTokenExpirationTime now }⟩ ∧
    (mkToken svc newId "access-token" 1 svc.tokenExpirationTime now).claims.tokenType
      = "access-token" ∧
    (mkToken svc newId "refresh-token" 1 svc.refreshTokenExpirationTime now).claims.tokenType
      = "refresh-token" := by
  have hcreate :=
    createAccountWithPassword_fresh db newId email username (bcryptHash password) hfe hfu
  have hreg : handleRegister db newId email username password true true
      = (db ++ [newPasswordAccount newId email username (bcryptHash password)],
        ⟨200, .message "Account created successfully"⟩) := by
    unfold handleRegister
    rw [hcreate]
    simp
  have hlookup : getAccountByUsername
      (db ++ [newPasswordAccount newId email username (bcryptHash password)]) username
      = .ok (newPasswordAccount newId email username (bcryptHash password)) :=
    getAccountByUsername_append_fresh db _ username hfu rfl
  have hact : getAccountByUsername
      (activateAccount
        (db ++ [newPasswordAccount newId email username (bcryptHash password)]) newId) username
      = .ok { newPasswordAccount newId email username (bcryptHash password) with
          status := AccountStatus.active } := by
    rw [getAccountByUsername_activate _ newId username _ hlookup]
    have hid : (newPasswordAccount newId email username (bcryptHash password)).accountId = newId :=
      rfl
    rw [if_pos hid]
  refine ⟨by rw [hreg], by rw [hreg]; exact hlookup, rfl, ?_, ?_, rfl, rfl⟩
  · rw [hreg]
    exact handleLogin_inactive_eq svc _ now username password _ hlookup
      (by simp [newPasswordAccount])
  · rw [hreg]
    rw [handleLogin_ok_eq svc _ now username password _ hact rfl rfl]
    rfl

/-- C7 witness: the scenario at the concrete registration data on an
empty table. -/
theorem c7_register_activate_login_witness :
    (handleRegister [] idEx "a@x.com" "a" "pw" true true).2
      = ⟨200, .message "Account created successfully"⟩ ∧
    getAccountByUsername (handleRegister [] idEx "a@x.com" "a" "pw" true true).1 "a"
      = .ok (newPasswordAccount idEx "a@x.com" "a" (bcryptHash "pw")) ∧
    (newPasswordAccount idEx "a@x.com" "a" (bcryptHash "pw")).status
      = AccountStatus.inactive ∧
    handleLogin svcEx (handleRegister [] idEx "a@x.com" "a" "pw" true true).1 0 "a" "pw"
      = ⟨403, .message "Account is not active"⟩ ∧
    handleLogin svcEx
        (activateAccount (handleRegister [] idEx "a@x.com" "a" "pw" true true).1 idEx) 0 "a" "pw"
      = ⟨200, .login
          { id := idEx, username := "a", email := "a@x.com",
            avatar := generateMediaLink idEx "avatar" "avatar.png",
            accessToken := mkToken svcEx idEx "access-token" 1 svcEx.tokenExpirationTime 0,
            refreshToken :=
              mkToken svcEx idEx "refresh-token" 1 svcEx.refreshTokenExpirationTime 0 }⟩ ∧
    (mkToken svcEx idEx "access-token" 1 svcEx.tokenExpirationTime 0).claims.tokenType
      = "access-token" ∧
    (mkToken svcEx idEx "refresh-token" 1 svcEx.refreshTokenExpirationTime 0).claims.tokenType
      = "refresh-token" :=
  c7_register_activate_login svcEx [] 0 idEx "a@x.com" "a" "pw" (by simp) (by simp)

/-- The OAuth callback on a fresh provider identity inserts the active
row carrying the identity, then answers 500 when the user repository
creation fails and the full login payload when it succeeds; the result
never depends on the outcome of the avatar download. -/
theorem handleOAuth_register_eq (svc : JWTService) (db : Db) (now : Int) (user : UserData)
    (provider newId : String) (repoOk dl : Bool)
    (hreg : isAccountRegistered db provider user.id = false)
    (hfe : ∀ a ∈ db, a.email ≠ user.email) (hfu : ∀ a ∈ db, a.username ≠ user.username) :
    handleOAuth svc db now user provider newId repoOk dl
      = (db ++ [newOAuthAccount newId user.email user.username user.avatar provider user.id],
        if ¬ repoOk then ⟨500, .message "Internal server error"⟩
        else ⟨200, .login
          { id := newId, username := user.username, email := user.email,
            avatar := generateMediaLink newId "avatar" "avatar.png",
            accessToken := mkToken svc newId "access-token" 1 svc.tokenExpirationTime now,
            refreshToken :=
              mkToken svc newId "refresh-token" 1 svc.refreshTokenExpirationTime now }⟩) := by
  unfold handleOAuth
  rw [hreg]
  simp only [Bool.false_eq_true, if_false]
  rw [createAccountWithOAuth_fresh db newId user.email user.username user.avatar provider
    user.id hfe hfu]
  dsimp only
  rw [createToken_access, createToken_refresh]
  cases repoOk
  · rfl
  · rfl

/-- The OAuth callback on a registered, active provider identity logs
into the found row, writes nothing, and answers the login payload. -/
theorem handleOAuth_login_eq (svc : JWTService) (db : Db) (now : Int) (user : UserData)
    (provider newId : String) (repoOk dl : Bool) (acc : Account)
    (hreg : isAccountRegistered db provider user.id = true)
    (hfind : loginWithOAuth db provider user.id = .ok acc)
    (hactive : acc.status = AccountStatus.active) :
    handleOAuth svc db now user provider newId repoOk dl
      = (db, ⟨200, .login
          { id := acc.accountId, username := acc.username, email := acc.email,
            avatar := generateMediaLink acc.accountId "avatar" "avatar.png",
            accessToken :=
              mkToken svc acc.accountId "access-token" acc.tokenVersion
                svc.tokenExpirationTime now,
            refreshToken :=
              mkToken svc acc.accountId "refresh-token" acc.tokenVersion
                svc.refreshTokenExpirationTime now }⟩) := by
  unfold handleOAuth
  rw [hreg]
  simp only [if_true]
  rw [hfind]
  dsimp only
  rw [if_neg (by simp [hactive]), createToken_access, createToken_refresh]

/-- C8: an OAuth callback whose provider identity matches no account
creates exactly one new account, active, with the identity stored, and
returns the issued token pair in the same response; a second callback
with the identical identity logs into that account and appends no
second row. -/
theorem c8_oauth_register_once (svc : JWTService) (db : Db) (now now2 : Int)
    (user : UserData) (provider newId newId2 : String)
    (hreg : isAccountRegistered db provider user.id = false)
    (hfe : ∀ a ∈ db, a.email ≠ user.email) (hfu : ∀ a ∈ db, a.username ≠ user.username) :
    (handleOAuth svc db now user provider newId true true).1
      = db ++ [newOAuthAccount newId user.email user.username user.avatar provider user.id] ∧
    (newOAuthAccount newId user.email user.username user.avatar provider user.id).status
      = AccountStatus.active ∧
    (newOAuthAccount newId user.email user.username user.avatar provider user.id).oauthProvider
      = some provider ∧
    (newOAuthAccount newId user.email user.username user.avatar provider user.id).oauthProviderId
      = some user.id ∧
    (handleOAuth svc db now user provider newId true true).2
      = ⟨200, .login
          { id := newId, username := user.username, email := user.email,
            avatar := generateMediaLink newId "avatar" "avatar.png",
            accessToken := mkToken svc newId "access-token" 1 svc.tokenExpirationTime now,
            refreshToken :=
              mkToken svc newId "refresh-token" 1 svc.refreshTokenExpirationTime now }⟩ ∧
    (handleOAuth svc (handleOAuth svc db now user provider newId true true).1 now2 user provider
        newId2 true true).1
      = (handleOAuth svc db now user provider newId true true).1 ∧
    (handleOAuth svc (handleOAuth svc db now user provider newId true true).1 now2 user provider
        newId2 true true).2
      = ⟨200, .login
          { id := newId, username := user.username, email := user.email,
            avatar := generateMediaLink newId "avatar" "avatar.png",
            accessToken := mkToken svc newId "access-token" 1 svc.tokenExpirationTime now2,
            refreshToken :=
              mkToken svc newId "refresh-token" 1 svc.refreshTokenExpirationTime now2 }⟩ := by
  have h1 : handleOAuth svc db now user provider newId true true
      = (db ++ [newOAuthAccount newId user.email user.username user.avatar provider user.id],
        ⟨200, .login
          { id := newId, username := user.username, email := user.email,
            avatar := generateMediaLink newId "avatar" "avatar.png",
            accessToken := mkToken svc newId "access-token" 1 svc.tokenExpirationTime now,
            refreshToken :=
              mkToken svc newId "refresh-token" 1 svc.refreshTokenExpirationTime now }⟩) := by
    rw [handleOAuth_register_eq svc db now user provider newId true true hreg hfe hfu]
    simp
  have hacc : (newOAuthAccount newId user.email user.username user.avatar provider
      user.id).status = AccountStatus.active := rfl
  have hreg2 : isAccountRegistered
      (db ++ [newOAuthAccount newId user.email user.username user.avatar provider user.id])
      provider user.id = true :=
    isAccountRegistered_append db _ provider user.id rfl rfl
  have hfind2 : loginWithOAuth
      (db ++ [newOAuthAccount newId user.email user.username user.avatar provider user.id])
      provider user.id
      = .ok (newOAuthAccount newId user.email user.username user.avatar provider user.id) :=
    loginWithOAuth_append_fresh db _ provider user.id hreg rfl rfl
  have h2 := handleOAuth_login_eq svc
    (db ++ [newOAuthAccount newId user.email user.username user.avatar provider user.id])
    now2 user provider newId2 true true
    (newOAuthAccount newId user.email user.username user.avatar provider user.id)
    hreg2 hfind2 hacc
  refine ⟨?_, rfl, rfl, rfl, ?_, ?_, ?_⟩
  · rw [h1]
  · rw [h1]
  · rw [h1, h2]
  · rw [h1, h2]
    rfl

/-- A concrete external identity fetched from a provider. -/
def oauthUserEx : UserData :=
  { id := "gh-123", username := "b", avatar := "http://x/b.png", email := "b@x.com" }

/-- A second generated row id for a repeated callback. -/
def idEx2 : String := "00000000-0000-0000-0000-000000000002"

/-- C8 witness: the two concrete callbacks on an empty table. -/
theorem c8_oauth_register_once_witness :
    (handleOAuth svcEx [] 0 oauthUserEx "github" idEx true true).1
      = [] ++ [newOAuthAccount idEx oauthUserEx.email oauthUserEx.username oauthUserEx.avatar
          "github" oauthUserEx.id] ∧
    (newOAuthAccount idEx oauthUserEx.email oauthUserEx.username oauthUserEx.avatar "github"
        oauthUserEx.id).status = AccountStatus.active ∧
    (newOAuthAccount idEx oauthUserEx.email oauthUserEx.username oauthUserEx.avatar "github"
        oauthUserEx.id).oauthProvider = some "github" ∧
    (newOAuthAccount idEx oauthUserEx.email oauthUserEx.username oauthUserEx.avatar "github"
        oauthUserEx.id).oauthProviderId = some oauthUserEx.id ∧
    (handleOAuth svcEx [] 0 oauthUserEx "github" idEx true true).2
      = ⟨200, .login
          { id := idEx, username := oauthUserEx.username, email := oauthUserEx.email,
            avatar := generateMediaLink idEx "avatar" "avatar.png",
            accessToken := mkToken svcEx idEx "access-token" 1 svcEx.tokenExpirationTime 0,
            refreshToken :=
              mkToken svcEx idEx "refresh-token" 1 svcEx.refreshTokenExpirationTime 0 }⟩ ∧
    (handleOAuth svcEx (handleOAuth svcEx [] 0 oauthUserEx "github" idEx true true).1 1
        oauthUserEx "github" idEx2 true true).1
      = (handleOAuth svcEx [] 0 oauthUserEx "github" idEx true true).1 ∧
    (handleOAuth svcEx (handleOAuth svcEx [] 0 oauthUserEx "github" idEx true true).1 1
        oauthUserEx "github" idEx2 true true).2
      = ⟨200, .login
          { id := idEx, username := oauthUserEx.username, email := oauthUserEx.email,
            avatar := generateMediaLink idEx "avatar" "avatar.png",
            accessToken := mkToken svcEx idEx "access-token" 1 svcEx.tokenExpirationTime 1,
            refreshToken :=
              mkToken svcEx idEx "refresh-token" 1 svcEx.refreshTokenExpirationTime 1 }⟩ :=
  c8_oauth_register_once svcEx [] 0 1 oauthUserEx "github" idEx idEx2 (by decide)
    (by simp) (by simp)

/-- C9, counterexample: on a concrete fresh OAuth registration whose
user-repository creation fails, the inserted account stays in the
table but the parent request fails: the response is 500 with no user
info and no tokens, against the claim that it still returns them. -/
theorem c9_counterexample :
    (handleOAuth svcEx [] 0 oauthUserEx "github" idEx false true).1
      = [newOAuthAccount idEx "b@x.com" "b" "http://x/b.png" "github" "gh-123"] ∧
    (handleOAuth svcEx [] 0 oauthUserEx "github" idEx false true).2
      = ⟨500, .message "Internal server error"⟩ := by
  constructor
  · decide
  · decide

/-- C9 (amended): the avatar download is genuinely best-effort, its
outcome never influences the state or the response; but a failure of
the user-repository creation, while not rolling back the inserted
account, does fail the parent request with a 500 response carrying no
user info or tokens; only when repository creation succeeds does the
response return them. -/
theorem c9_best_effort_asymmetry (svc : JWTService) (db : Db) (now : Int) (user : UserData)
    (provider newId : String) (repoOk : Bool)
    (hreg : isAccountRegistered db provider user.id = false)
    (hfe : ∀ a ∈ db, a.email ≠ user.email) (hfu : ∀ a ∈ db, a.username ≠ user.username) :
    (∀ d1 d2 : Bool, handleOAuth svc db now user provider newId repoOk d1
      = handleOAuth svc db now user provider newId repoOk d2) ∧
    (handleOAuth svc db now user provider newId repoOk true).1
      = db ++ [newOAuthAccount newId user.email user.username user.avatar provider user.id] ∧
    (repoOk = false →
      (handleOAuth svc db now user provider newId repoOk true).2
        = ⟨500, .message "Internal server error"⟩) ∧
    (repoOk = true →
      (handleOAuth svc db now user provider newId repoOk true).2
        = ⟨200, .login
            { id := newId, username := user.username, email := user.email,
              avatar := generateMediaLink newId "avatar" "avatar.png",
              accessToken := mkToken svc newId "access-token" 1 svc.tokenExpirationTime now,
              refreshToken :=
                mkToken svc newId "refresh-token" 1 svc.refreshTokenExpirationTime now }⟩) := by
  have h1 := handleOAuth_register_eq svc db now user provider newId repoOk true hreg hfe hfu
  refine ⟨fun d1 d2 => rfl, by rw [h1], ?_, ?_⟩
  · intro hrk
    subst hrk
    rw [h1]
    rfl
  · intro hrk
    subst hrk
    rw [h1]
    rfl

/-- C9 witness: the amended statement at the concrete failing
repository creation of the counterexample. -/
theorem c9_best_effort_asymmetry_witness :
    (∀ d1 d2 : Bool, handleOAuth svcEx [] 0 oauthUserEx "github" idEx false d1
      = handleOAuth svcEx [] 0 oauthUserEx "github" idEx false d2) ∧
    (handleOAuth svcEx [] 0 oauthUserEx "github" idEx false true).1
      = [] ++ [newOAuthAccount idEx oauthUserEx.email oauthUserEx.username oauthUserEx.avatar
          "github" oauthUserEx.id] ∧
    (false = false →
      (handleOAuth svcEx [] 0 oauthUserEx "github" idEx false true).2
        = ⟨500, .message "Internal server error"⟩) ∧
    (false = true →
      (handleOAuth svcEx [] 0 oauthUserEx "github" idEx false true).2
        = ⟨200, .login
            { id := idEx, username := oauthUserEx.username, email := oauthUserEx.email,
              avatar := generateMediaLink idEx "avatar" "avatar.png",
              accessToken := mkToken svcEx idEx "access-token" 1 svcEx.tokenExpirationTime 0,
              refreshToken :=
                mkToken svcEx idEx "refresh-token" 1 svcEx.refreshTokenExpirationTime 0 }⟩) :=
  c9_best_effort_asymmetry svcEx [] 0 oauthUserEx "github" idEx false (by decide)
    (by simp) (by simp)

end Zust
